import Mathlib

/-!
Verification of the `s2awsdl` Sentinel-2 downloader
(`src/s2awsdl/downloader.py`) against its natural-language specification.

The Python module is embedded shallowly:

* dates are integers counting days (the arithmetic that `datetime` +
  `timedelta` performs); the proleptic-Gregorian conversion used by
  `datetime` for `.year`/`.month`/`.day` and `strftime` is embedded by
  `civilFromDays` / `daysFromCivil`;
* the S3 client (`boto3`), the XML parser (`xmltodict`) and the float
  parser are external collaborators, modelled by the record `S3Env`;
* the file system is the set of existing file paths (a `List String`),
  and each retrieve/write of a raster is recorded as an action
  `(s3 uri, output path)`;
* a Python exception escaping a function is `Except.error`.
-/

/-! ## Calendar model (Python `datetime`, proleptic Gregorian) -/

/-- Days-to-civil conversion (year, month, day) for a day count relative to
1970-01-01, as performed by Python `datetime`. -/
def civilFromDays (z : Int) : Int × Nat × Nat :=
  let z' := z + 719468
  let era : Int := (if 0 ≤ z' then z' else z' - 146096) / 146097
  let doe : Nat := (z' - era * 146097).toNat
  let yoe : Nat := (doe - doe / 1460 + doe / 36524 - doe / 146096) / 365
  let y : Int := (yoe : Int) + era * 400
  let doy : Nat := doe - (365 * yoe + yoe / 4 - yoe / 100)
  let mp : Nat := (5 * doy + 2) / 153
  let d : Nat := doy - (153 * mp + 2) / 5 + 1
  let m : Nat := if mp < 10 then mp + 3 else mp - 9
  (if m ≤ 2 then y + 1 else y, m, d)

/-- Civil-to-days conversion, inverse of `civilFromDays`. -/
def daysFromCivil (y : Int) (m d : Nat) : Int :=
  let y' := if m ≤ 2 then y - 1 else y
  let era : Int := (if 0 ≤ y' then y' else y' - 399) / 400
  let yoe : Nat := (y' - era * 400).toNat
  let mp : Nat := if 2 < m then m - 3 else m + 9
  let doy : Nat := (153 * mp + 2) / 5 + d - 1
  let doe : Nat := yoe * 365 + yoe / 4 - yoe / 100 + doy
  era * 146097 + (doe : Int) - 719468

/-- Left-pad a string with zeros to width `w` (numeric `strftime` fields). -/
def zpad (w : Nat) (s : String) : String :=
  if s.length < w then String.mk (List.replicate (w - s.length) '0') ++ s else s

/-- Python `date.strftime("%Y%m%d")`: zero-padded year, month, day. -/
def fmtYmd (d : Int) : String :=
  let c := civilFromDays d
  zpad 4 (toString c.1) ++ zpad 2 (toString c.2.1) ++ zpad 2 (toString c.2.2)

/-- Python `str.lower()` on ASCII (the only case the repo exercises). -/
def charLower (c : Char) : Char :=
  if 'A' ≤ c ∧ c ≤ 'Z' then Char.ofNat (c.toNat + 32) else c

/-- Python `str.upper()` on ASCII. -/
def charUpper (c : Char) : Char :=
  if 'a' ≤ c ∧ c ≤ 'z' then Char.ofNat (c.toNat - 32) else c

/-- `s.lower()`. -/
def strLower (s : String) : String := String.mk (s.data.map charLower)

/-- `s.upper()`. -/
def strUpper (s : String) : String := String.mk (s.data.map charUpper)

/-! ## Module-level constants (downloader.py lines 15-42) -/

/-- `S2_BANDS` (downloader.py line 15). -/
def S2_BANDS : List String :=
  ["B01", "B02", "B03", "B04", "B05",
   "B06", "B07", "B08", "B8A", "B09",
   "B10", "B11", "B12", "TCI"]

/-- `BAND_RES` (downloader.py line 20): an insertion-ordered dict from native
resolution to the bands of that group. -/
def BAND_RES : List (Nat × List String) :=
  [(10, ["B02", "B03", "B04", "B08", "TCI"]),
   (20, ["B05", "B06", "B07", "B8A", "B11", "B12"]),
   (60, ["B01", "B09", "B10"])]

/-- Python dict lookup on a `str`-keyed association list: `d[k]` succeeds with
the value iff the key is present (`KeyError` otherwise). -/
def lookupStr (d : List (String × String)) (k : String) : Option String :=
  (d.find? (fun p => p.1 == k)).map (fun p => p.2)

/-- `S3_PREFIX` in the source (downloader.py line 31). -/
def S3_PREFIXES : List (String × String) :=
  [("l1c", "sentinel-s2-l1c/tiles"), ("l2a", "sentinel-s2-l2a/tiles")]

/-- `S3_BUCKETS` (downloader.py line 35). -/
def S3_BUCKETS : List (String × String) :=
  [("l1c", "sentinel-s2-l1c"), ("l2a", "sentinel-s2-l2a")]

/-- `XML_HEADERS` (downloader.py line 39). -/
def XML_HEADERS : List (String × String) :=
  [("l1c", "n1:Level-1C_Tile_ID"), ("l2a", "n1:Level-2A_Tile_ID")]

/-! ## Instance state (`S2AWSDownloader.__init__`, lines 45-63) -/

/-- The mutable fields of an `S2AWSDownloader` instance (the `boto3` client
and the `gdal` ambient configuration carry no information beyond the
credential strings and are omitted). -/
structure DLState where
  access_keyid : String
  secret_access_keyid : String
  verbose : Bool
  cloud_cov : Int
  nodata_cov : Int
  processing_level : Option String
deriving DecidableEq, Repr

/-- `S2AWSDownloader.__init__`: instance defaults `cloud_cov = 70`,
`nodata_cov = 10`, `processing_level = None`. -/
def mkDownloader (ak sk : String) (verbose : Bool) : DLState :=
  { access_keyid := ak, secret_access_keyid := sk, verbose := verbose,
    cloud_cov := 70, nodata_cov := 10, processing_level := none }

/-! ## Tile-id decomposition (lines 132-136 and 206-210) -/

/-- `tile.startswith("T")`: does the first character equal `'T'`? -/
def startsWithT (tile : String) : Bool :=
  match tile.data with
  | [] => false
  | c :: _ => c = 'T'

/-- Strip an optional leading `"T"` from the tile id. -/
def stripT (tile : String) : String :=
  if startsWithT tile then tile.drop 1 else tile

/-- `tile[:2]`. -/
def tileid1 (t : String) : String := t.take 2

/-- `tile[2:3]`. -/
def tileid2 (t : String) : String := (t.drop 2).take 1

/-- `tile[3:]`. -/
def tileid3 (t : String) : String := t.drop 3

/-! ## External collaborators -/

/-- The external world seen by `search_s2l2a`: `boto3`'s `get_object`
(`none` models any raised exception, all of which line 160 catches),
`xmltodict.parse` combined with the nested dict navigation (`none` models
any exception: malformed XML, missing key), and Python `float()` applied to
the extracted text (`none` models `ValueError`).  Percentages are rationals:
the source only parses and compares them, never computes. -/
structure S3Env where
  getObject : String → String → Option String
  xmlLookup : String → List String → Option String
  parseFloat : String → Option Rat

/-- The metadata key of line 156:
`tiles/{t1}/{t2}/{t3}/{year}/{mon}/{day}/0/metadata.xml` with the unpadded
`str()` rendering of the date components. -/
def mkMetaKey (t1 t2 t3 : String) (d : Int) : String :=
  let c := civilFromDays d
  "tiles/" ++ t1 ++ "/" ++ t2 ++ "/" ++ t3 ++ "/" ++ toString c.1 ++ "/" ++
    toString c.2.1 ++ "/" ++ toString c.2.2 ++ "/0/metadata.xml"

/-- The navigation path of lines 164-174 for a quality field. -/
def qiPath (lvl field : String) : List String :=
  [(lookupStr XML_HEADERS lvl).getD "", "n1:Quality_Indicators_Info",
   "Image_Content_QI", field]

/-- Lines 163-168: parse the body and extract `CLOUDY_PIXEL_PERCENTAGE` as a
float; `none` is an escaping exception. -/
def readCloudy (env : S3Env) (lvl body : String) : Option Rat :=
  (env.xmlLookup body (qiPath lvl "CLOUDY_PIXEL_PERCENTAGE")).bind env.parseFloat

/-- Lines 170-174: extract `NODATA_PIXEL_PERCENTAGE` as a float. -/
def readNodata (env : S3Env) (lvl body : String) : Option Rat :=
  (env.xmlLookup body (qiPath lvl "NODATA_PIXEL_PERCENTAGE")).bind env.parseFloat

/-- Lines 169-176: `nodata` is the parsed `NODATA_PIXEL_PERCENTAGE` for
`"l2a"` and the constant `0` otherwise. -/
def nodataOf (env : S3Env) (lvl body : String) : Option Rat :=
  if lvl = "l2a" then readNodata env lvl body else some 0

/-! ## Acquisition search (`search_s2l2a`, lines 121-181) -/

/-- Lines 148-149: `[date_from + timedelta(days=i) for i in range(n_days + 1)]`
with `n_days = (date_to - date_from).days`. -/
def searchDates (date_from date_to : Int) : List Int :=
  (List.range (date_to - date_from + 1).toNat).map (fun (i : Nat) => date_from + (i : Int))

/-- The error message of the uncaught parse exception (lines 163-174). -/
def parseErrMsg : String := "metadata parse failure"

/-- The message of the `ValueError` raised at line 141. -/
def wrongLevelMsg : String :=
  "Wrong processing level was passed. Choose between L1C or L2A."

/-- The loop of lines 151-179.  Returns the result (accepted dates, or the
uncaught exception) together with the list of `get_object` requests issued,
in order. -/
def searchLoop (env : S3Env) (lvl bucket t1 t2 t3 : String) (cc nc : Rat) :
    List Int → Except String (List Int) × List (String × String)
  | [] => (Except.ok [], [])
  | d :: rest =>
    let key := mkMetaKey t1 t2 t3 d
    match env.getObject bucket key with
    | none =>
      match searchLoop env lvl bucket t1 t2 t3 cc nc rest with
      | (r, reqs) => (r, (bucket, key) :: reqs)
    | some body =>
      match readCloudy env lvl body, nodataOf env lvl body with
      | some cloudy, some nodata =>
        match searchLoop env lvl bucket t1 t2 t3 cc nc rest with
        | (Except.error e, reqs) => (Except.error e, (bucket, key) :: reqs)
        | (Except.ok ds, reqs) =>
          (Except.ok (if cloudy ≤ cc ∧ nodata ≤ nc then d :: ds else ds),
           (bucket, key) :: reqs)
      | _, _ => (Except.error parseErrMsg, [(bucket, key)])

/-- The observable outcome of one `search_s2l2a` call: the returned list of
dates (or escaping exception), the `get_object` requests issued, and the
instance state after the call. -/
structure SearchOutcome where
  result : Except String (List Int)
  requests : List (String × String)
  finalState : DLState
deriving Repr

/-- `S2AWSDownloader.search_s2l2a` (lines 121-181).  The signature defaults
are `cloud_cov = 100`, `nodata_cov = 100`, `processing_level = "l2a"`. -/
def search_s2l2a (env : S3Env) (s : DLState) (tile : String)
    (date_from date_to : Int) (cloud_cov nodata_cov : Rat)
    (processing_level : String) : SearchOutcome :=
  let tile' := stripT tile
  let t1 := tileid1 tile'
  let t2 := tileid2 tile'
  let t3 := tileid3 tile'
  let lvl := strLower processing_level
  let s' := { s with processing_level := some lvl }
  match lookupStr S3_BUCKETS lvl with
  | none => ⟨Except.error wrongLevelMsg, [], s'⟩
  | some bucket =>
    match searchLoop env lvl bucket t1 t2 t3 cloud_cov nodata_cov
        (searchDates date_from date_to) with
    | (r, reqs) => ⟨r, reqs, s'⟩

/-! ## Image fetcher (`download_images`, lines 183-251) -/

/-- `self.processing_level.upper()`; total stand-in for the attribute access
(callers guard the `none` case before reaching it). -/
def levelUpper (lvl : Option String) : String := strUpper (lvl.getD "")

/-- `Path.joinpath` rendered on strings. -/
def joinPath (a b : String) : String := a ++ "/" ++ b

/-- The output file name pattern of lines 224 and 244:
`T{tile}_{date:%Y%m%d}_{LEVEL}_{name}.tif`. -/
def outFileName (tile dateStr lvlU name : String) : String :=
  "T" ++ tile ++ "_" ++ dateStr ++ "_" ++ lvlU ++ "_" ++ name ++ ".tif"

/-- The values lines 203-218 compute once per single-date call. -/
structure FetchCtx where
  lvl : Option String
  t1 : String
  t2 : String
  t3 : String
  tile : String
  dateStr : String
  y : Int
  m : Nat
  d : Nat
  outDateDir : String
  resolution : Option Nat
deriving DecidableEq, Repr

/-- Lines 203-218 of `download_images` (single-date branch). -/
def mkFetchCtx (s : DLState) (tile : String) (date : Int)
    (output_dir : String) (resolution : Option Nat) : FetchCtx :=
  let tile' := stripT tile
  let dateStr := fmtYmd date
  let c := civilFromDays date
  { lvl := s.processing_level, t1 := tileid1 tile', t2 := tileid2 tile',
    t3 := tileid3 tile', tile := tile', dateStr := dateStr,
    y := c.1, m := c.2.1, d := c.2.2,
    outDateDir := joinPath output_dir dateStr, resolution := resolution }

/-- Line 234/236: the first (unique) key of `BAND_RES` whose group contains
the band; `none` models the `IndexError` on an unknown band. -/
def nativeRes (band : String) : Option Nat :=
  ((BAND_RES.filter (fun p => p.2.contains band)).map (fun p => p.1)).head?

/-- The keys of `BAND_RES` whose band list contains `band`
(the list comprehension at line 234). -/
def bandResList (band : String) : List Nat :=
  (BAND_RES.filter (fun p => p.2.contains band)).map (fun p => p.1)

/-- Lines 233-236: `max([resolution, native])` when `resolution` is truthy
(`None` and `0` are falsy), otherwise the native resolution. -/
def effRes (band : String) (resolution : Option Nat) : Option Nat :=
  match resolution with
  | some r => if r ≠ 0 then (nativeRes band).map (fun n => max r n) else nativeRes band
  | none => nativeRes band

/-- The guard of lines 225 and 245:
`(output_fpath.exists() and overwrite) or not output_fpath.exists()`. -/
def shouldWrite (fs : List String) (p : String) (overwrite : Bool) : Bool :=
  (decide (p ∈ fs) && overwrite) || !(decide (p ∈ fs))

/-- Writing a file makes it exist (set insertion). -/
def insertFile (p : String) (fs : List String) : List String :=
  if p ∈ fs then fs else fs ++ [p]

/-- Python dict assignment `d[k] = v` on an insertion-ordered dict. -/
def dictInsert {α : Type} (d : List (String × α)) (k : String) (v : α) :
    List (String × α) :=
  if d.any (fun p => p.1 == k) then
    d.map (fun p => if p.1 == k then (k, v) else p)
  else d ++ [(k, v)]

/-- The output path of the band iteration (line 244), as a function of the
static context. -/
def bandOutPath (cx : FetchCtx) (band : String) : String :=
  joinPath cx.outDateDir (outFileName cx.tile cx.dateStr (levelUpper cx.lvl) band)

/-- One iteration of the band loop (lines 232-247), without its effects:
returns the output path, the S3 URI, and whether the retrieve/write guard
fires; `Except.error` models the uncaught `IndexError` on an unknown band and
`KeyError` on a processing level outside `S3_PREFIX`. -/
def bandStep (cx : FetchCtx) (overwrite : Bool) (fs : List String)
    (band : String) : Except String (String × String × Bool) :=
  match effRes band cx.resolution with
  | none => Except.error "IndexError: band not in BAND_RES"
  | some band_res =>
    match cx.lvl.bind (lookupStr S3_PREFIXES) with
    | none => Except.error "KeyError: invalid processing level"
    | some pre =>
      let base := "/vsis3/" ++ pre ++ "/" ++ cx.t1 ++ "/" ++ cx.t2 ++ "/" ++
        cx.t3 ++ "/" ++ toString cx.y ++ "/" ++ toString cx.m ++ "/" ++
        toString cx.d ++ "/0/"
      let uri := if cx.lvl == some "l2a" then
          base ++ "R" ++ toString band_res ++ "m/" ++ band ++ ".jp2"
        else
          base ++ band ++ ".jp2"
      let path := bandOutPath cx band
      Except.ok (path, uri, shouldWrite fs path overwrite)

/-- The band loop of lines 232-249, threading the file system, the
`path_dict` entries and the performed retrieve/write actions. -/
def bandLoop (cx : FetchCtx) (overwrite : Bool) :
    List String → List String → List (String × String) →
    List (String × String) →
    Except String (List (String × String) × List String × List (String × String))
  | [], fs, dict, acts => Except.ok (dict, fs, acts)
  | band :: rest, fs, dict, acts =>
    match bandStep cx overwrite fs band with
    | Except.error e => Except.error e
    | Except.ok (path, uri, wrote) =>
      bandLoop cx overwrite rest
        (if wrote then insertFile path fs else fs)
        (dictInsert dict band path)
        (if wrote then acts ++ [(uri, path)] else acts)

/-- The cloud-mask S3 URI of line 222. -/
def cloudUri (s : DLState) (cx : FetchCtx) : String :=
  let pre := (s.processing_level.bind (lookupStr S3_PREFIXES)).getD ""
  "/vsis3/" ++ pre ++ "/" ++ cx.t1 ++ "/" ++ cx.t2 ++ "/" ++
    cx.t3 ++ "/" ++ toString cx.y ++ "/" ++ toString cx.m ++ "/" ++
    toString cx.d ++ "/0/qi/CLD_20m.jp2"

/-- The cloud-mask output path of line 224. -/
def cloudPath (s : DLState) (cx : FetchCtx) : String :=
  joinPath cx.outDateDir
    (outFileName cx.tile cx.dateStr (levelUpper s.processing_level) "CLD")

/-- The single-date branch of `download_images` (lines 203-249).  Returns the
`path_dict`, the file system after the call, and the retrieve/write actions
performed, or the uncaught exception. -/
def download_images_single (s : DLState) (fs : List String) (tile : String)
    (date : Int) (output_dir : String) (bands : List String)
    (resolution : Option Nat) (download_cloud overwrite : Bool) :
    Except String (List (String × String) × List String × List (String × String)) :=
  let cx := mkFetchCtx s tile date output_dir resolution
  if download_cloud && (s.processing_level == some "l2a") then
    -- lines 221-229: the L2A cloud mask
    let curi := cloudUri s cx
    let cpath := cloudPath s cx
    let wrote := shouldWrite fs cpath overwrite
    bandLoop cx overwrite bands
      (if wrote then insertFile cpath fs else fs)
      (dictInsert [] "CLD" cpath)
      (if wrote then [(curi, cpath)] else [])
  else
    bandLoop cx overwrite bands fs [] []

/-- The `dates` argument of `download_images`: a single `datetime` or a
list of them (line 198's `isinstance` check). -/
inductive DatesArg where
  | single : Int → DatesArg
  | many : List Int → DatesArg
deriving DecidableEq, Repr

/-- The returned `path_dict`: band-to-path for a single-date call,
date-string-to-inner-dict for a list call. -/
inductive PathDict where
  | flat : List (String × String) → PathDict
  | byDate : List (String × List (String × String)) → PathDict
deriving DecidableEq, Repr

/-- The per-date recursion of lines 198-202: each recursive call is
`self.download_images(tile, date, output_dir, bands, resolution)`, so
`download_cloud` and `overwrite` take their defaults `true` and `false`. -/
def manyLoop (s : DLState) (tile output_dir : String) (bands : List String)
    (resolution : Option Nat) :
    List Int → List String → List (String × List (String × String)) →
    List (String × String) →
    Except String (PathDict × List String × List (String × String))
  | [], fs, dict, acts => Except.ok (PathDict.byDate dict, fs, acts)
  | d :: rest, fs, dict, acts =>
    match download_images_single s fs tile d output_dir bands resolution
        true false with
    | Except.error e => Except.error e
    | Except.ok (ret, fs', acts') =>
      manyLoop s tile output_dir bands resolution rest fs'
        (dictInsert dict (fmtYmd d) ret) (acts ++ acts')

/-- `S2AWSDownloader.download_images` (lines 183-251).  The signature
defaults are `bands = S2_BANDS`, `resolution = None`,
`download_cloud = True`, `overwrite = False`. -/
def download_images (s : DLState) (fs : List String) (tile : String)
    (dates : DatesArg) (output_dir : String) (bands : List String)
    (resolution : Option Nat) (download_cloud overwrite : Bool) :
    Except String (PathDict × List String × List (String × String)) :=
  match dates with
  | DatesArg.single d =>
    match download_images_single s fs tile d output_dir bands resolution
        download_cloud overwrite with
    | Except.error e => Except.error e
    | Except.ok (dict, fs', acts) => Except.ok (PathDict.flat dict, fs', acts)
  | DatesArg.many ds => manyLoop s tile output_dir bands resolution ds fs [] []

/-! ## Lemmas about the search loop -/

theorem searchLoop_ok_sublist (env : S3Env) (lvl bucket t1 t2 t3 : String)
    (cc nc : Rat) :
    ∀ (L out : List Int) (reqs : List (String × String)),
      searchLoop env lvl bucket t1 t2 t3 cc nc L = (Except.ok out, reqs) →
      out.Sublist L := by
  intro L
  induction L with
  | nil =>
    intro out reqs h
    simp only [searchLoop, Prod.mk.injEq, Except.ok.injEq] at h
    simp [← h.1]
  | cons d rest ih =>
    intro out reqs h
    rcases hg : env.getObject bucket (mkMetaKey t1 t2 t3 d) with _ | body <;>
      rcases hrec : searchLoop env lvl bucket t1 t2 t3 cc nc rest with ⟨e | ds, reqs'⟩
    · simp only [searchLoop, hg, hrec, Prod.mk.injEq] at h
      exact absurd h.1.symm (by simp)
    · simp only [searchLoop, hg, hrec, Prod.mk.injEq, Except.ok.injEq] at h
      exact h.1 ▸ ((ih ds reqs' (by rw [hrec])).cons d)
    · rcases hc : readCloudy env lvl body with _ | cloudy <;>
        rcases hn : nodataOf env lvl body with _ | nodata <;>
        simp only [searchLoop, hg, hc, hn, hrec, Prod.mk.injEq] at h <;>
        exact absurd h.1.symm (by simp)
    · rcases hc : readCloudy env lvl body with _ | cloudy <;>
        rcases hn : nodataOf env lvl body with _ | nodata <;>
        simp only [searchLoop, hg, hc, hn, hrec, Prod.mk.injEq, Except.ok.injEq] at h
      · exact absurd h.1.symm (by simp)
      · exact absurd h.1.symm (by simp)
      · exact absurd h.1.symm (by simp)
      · have hds := ih ds reqs' (by rw [hrec])
        rw [← h.1]
        by_cases hcond : cloudy ≤ cc ∧ nodata ≤ nc
        · simpa [hcond] using hds.cons₂ d
        · simpa [hcond] using hds.cons d

theorem searchLoop_ok_requests (env : S3Env) (lvl bucket t1 t2 t3 : String)
    (cc nc : Rat) :
    ∀ (L out : List Int) (reqs : List (String × String)),
      searchLoop env lvl bucket t1 t2 t3 cc nc L = (Except.ok out, reqs) →
      reqs = L.map (fun d => (bucket, mkMetaKey t1 t2 t3 d)) := by
  intro L
  induction L with
  | nil =>
    intro out reqs h
    simp only [searchLoop, Prod.mk.injEq] at h
    simp [← h.2]
  | cons d rest ih =>
    intro out reqs h
    rcases hg : env.getObject bucket (mkMetaKey t1 t2 t3 d) with _ | body <;>
      rcases hrec : searchLoop env lvl bucket t1 t2 t3 cc nc rest with ⟨e | ds, reqs'⟩
    · simp only [searchLoop, hg, hrec, Prod.mk.injEq] at h
      exact absurd h.1.symm (by simp)
    · simp only [searchLoop, hg, hrec, Prod.mk.injEq] at h
      rw [← h.2, List.map_cons, ih ds reqs' (by rw [hrec])]
    · rcases hc : readCloudy env lvl body with _ | cloudy <;>
        rcases hn : nodataOf env lvl body with _ | nodata <;>
        simp only [searchLoop, hg, hc, hn, hrec, Prod.mk.injEq] at h <;>
        exact absurd h.1.symm (by simp)
    · rcases hc : readCloudy env lvl body with _ | cloudy <;>
        rcases hn : nodataOf env lvl body with _ | nodata <;>
        simp only [searchLoop, hg, hc, hn, hrec, Prod.mk.injEq] at h
      · exact absurd h.1.symm (by simp)
      · exact absurd h.1.symm (by simp)
      · exact absurd h.1.symm (by simp)
      · rw [← h.2, List.map_cons, ih ds reqs' (by rw [hrec])]

theorem searchLoop_all_fail (env : S3Env) (lvl bucket t1 t2 t3 : String)
    (cc nc : Rat) :
    ∀ L : List Int,
      (∀ d ∈ L, env.getObject bucket (mkMetaKey t1 t2 t3 d) = none) →
      searchLoop env lvl bucket t1 t2 t3 cc nc L =
        (Except.ok [], L.map (fun d => (bucket, mkMetaKey t1 t2 t3 d))) := by
  intro L
  induction L with
  | nil => intro _; simp [searchLoop]
  | cons d rest ih =>
    intro hall
    have hg := hall d (by simp)
    have hrec := ih (fun e he => hall e (by simp [he]))
    simp [searchLoop, hg, hrec]

theorem searchLoop_fetch_none_excluded (env : S3Env)
    (lvl bucket t1 t2 t3 : String) (cc nc : Rat) :
    ∀ (L out : List Int) (reqs : List (String × String)) (d : Int),
      searchLoop env lvl bucket t1 t2 t3 cc nc L = (Except.ok out, reqs) →
      env.getObject bucket (mkMetaKey t1 t2 t3 d) = none →
      d ∉ out := by
  intro L
  induction L with
  | nil =>
    intro out reqs d h _
    simp only [searchLoop, Prod.mk.injEq, Except.ok.injEq] at h
    simp [← h.1]
  | cons e rest ih =>
    intro out reqs d h hdnone
    rcases hg : env.getObject bucket (mkMetaKey t1 t2 t3 e) with _ | body <;>
      rcases hrec : searchLoop env lvl bucket t1 t2 t3 cc nc rest with ⟨r | ds, reqs'⟩
    · simp only [searchLoop, hg, hrec, Prod.mk.injEq] at h
      exact absurd h.1.symm (by simp)
    · simp only [searchLoop, hg, hrec, Prod.mk.injEq, Except.ok.injEq] at h
      exact h.1 ▸ ih ds reqs' d (by rw [hrec]) hdnone
    · rcases hc : readCloudy env lvl body with _ | cloudy <;>
        rcases hn : nodataOf env lvl body with _ | nodata <;>
        simp only [searchLoop, hg, hc, hn, hrec, Prod.mk.injEq] at h <;>
        exact absurd h.1.symm (by simp)
    · rcases hc : readCloudy env lvl body with _ | cloudy <;>
        rcases hn : nodataOf env lvl body with _ | nodata <;>
        simp only [searchLoop, hg, hc, hn, hrec, Prod.mk.injEq, Except.ok.injEq] at h
      · exact absurd h.1.symm (by simp)
      · exact absurd h.1.symm (by simp)
      · exact absurd h.1.symm (by simp)
      · have hde : d ≠ e := fun hde => by rw [hde, hg] at hdnone; cases hdnone
        have hnotin := ih ds reqs' d (by rw [hrec]) hdnone
        intro hmem
        rw [← h.1] at hmem
        by_cases hcond : cloudy ≤ cc ∧ nodata ≤ nc
        · simp [hcond] at hmem
          rcases hmem with hmem | hmem
          · exact hde hmem
          · exact hnotin hmem
        · simp [hcond] at hmem
          exact hnotin hmem

theorem searchLoop_mem_iff (env : S3Env) (lvl bucket t1 t2 t3 : String)
    (cc nc : Rat) :
    ∀ (L out : List Int) (reqs : List (String × String)) (d : Int)
      (body : String) (cloudy nodata : Rat),
      L.Nodup → d ∈ L →
      searchLoop env lvl bucket t1 t2 t3 cc nc L = (Except.ok out, reqs) →
      env.getObject bucket (mkMetaKey t1 t2 t3 d) = some body →
      readCloudy env lvl body = some cloudy →
      nodataOf env lvl body = some nodata →
      (d ∈ out ↔ (cloudy ≤ cc ∧ nodata ≤ nc)) := by
  intro L
  induction L with
  | nil => intro out reqs d body cloudy nodata _ hdL; cases hdL
  | cons e rest ih =>
    intro out reqs d body cloudy nodata hnd hdL h hfetch hc hn
    by_cases hde : d = e
    · subst hde
      have hnotrest : d ∉ rest := (List.nodup_cons.mp hnd).1
      rcases hrec : searchLoop env lvl bucket t1 t2 t3 cc nc rest with ⟨r | ds, reqs'⟩
      · simp only [searchLoop, hfetch, hc, hn, hrec, Prod.mk.injEq] at h
        exact absurd h.1.symm (by simp)
      · simp only [searchLoop, hfetch, hc, hn, hrec, Prod.mk.injEq, Except.ok.injEq] at h
        have hnotds : d ∉ ds := fun hmem =>
          hnotrest ((searchLoop_ok_sublist env lvl bucket t1 t2 t3 cc nc rest ds reqs'
            (by rw [hrec])).mem hmem)
        rw [← h.1]
        by_cases hcond : cloudy ≤ cc ∧ nodata ≤ nc
        · simp [hcond]
        · simp [hcond, hnotds, hcond]
    · have hdrest : d ∈ rest := by
        rcases List.mem_cons.mp hdL with h' | h'
        · exact absurd h' hde
        · exact h'
      have hndrest : rest.Nodup := (List.nodup_cons.mp hnd).2
      rcases hg : env.getObject bucket (mkMetaKey t1 t2 t3 e) with _ | ebody <;>
        rcases hrec : searchLoop env lvl bucket t1 t2 t3 cc nc rest with ⟨r | ds, reqs'⟩
      · simp only [searchLoop, hg, hrec, Prod.mk.injEq] at h
        exact absurd h.1.symm (by simp)
      · simp only [searchLoop, hg, hrec, Prod.mk.injEq, Except.ok.injEq] at h
        exact h.1 ▸ ih ds reqs' d body cloudy nodata hndrest hdrest (by rw [hrec]) hfetch hc hn
      · rcases hec : readCloudy env lvl ebody with _ | ecloudy <;>
          rcases hen : nodataOf env lvl ebody with _ | enodata <;>
          simp only [searchLoop, hg, hec, hen, hrec, Prod.mk.injEq] at h <;>
          exact absurd h.1.symm (by simp)
      · rcases hec : readCloudy env lvl ebody with _ | ecloudy <;>
          rcases hen : nodataOf env lvl ebody with _ | enodata <;>
          simp only [searchLoop, hg, hec, hen, hrec, Prod.mk.injEq, Except.ok.injEq] at h
        · exact absurd h.1.symm (by simp)
        · exact absurd h.1.symm (by simp)
        · exact absurd h.1.symm (by simp)
        · have hiff := ih ds reqs' d body cloudy nodata hndrest hdrest (by rw [hrec]) hfetch hc hn
          rw [← h.1]
          by_cases hcond : ecloudy ≤ cc ∧ enodata ≤ nc
          · simpa [hcond, hde] using hiff
          · simpa [hcond] using hiff

/-! ## Properties of the enumerated date range -/

theorem searchDates_mem (date_from date_to d : Int) :
    d ∈ searchDates date_from date_to ↔ date_from ≤ d ∧ d ≤ date_to := by
  unfold searchDates
  constructor
  · intro h
    rcases List.mem_map.mp h with ⟨i, hi, rfl⟩
    rw [List.mem_range] at hi
    omega
  · intro h
    refine List.mem_map.mpr ⟨(d - date_from).toNat, ?_, ?_⟩
    · rw [List.mem_range]; omega
    · omega

theorem searchDates_pairwise (date_from date_to : Int) :
    (searchDates date_from date_to).Pairwise (· < ·) := by
  unfold searchDates
  rw [List.pairwise_map]
  exact (List.pairwise_lt_range _).imp (fun h => by omega)

theorem searchDates_nodup (date_from date_to : Int) :
    (searchDates date_from date_to).Nodup :=
  (searchDates_pairwise date_from date_to).imp (fun h => by omega)

/-! ## Unfolding lemmas for `search_s2l2a` -/

theorem search_s2l2a_valid_eq (env : S3Env) (s : DLState) (tile : String)
    (date_from date_to : Int) (cc nc : Rat) (pl bucket : String)
    (hb : lookupStr S3_BUCKETS (strLower pl) = some bucket) :
    search_s2l2a env s tile date_from date_to cc nc pl =
      ⟨(searchLoop env (strLower pl) bucket (tileid1 (stripT tile))
          (tileid2 (stripT tile)) (tileid3 (stripT tile)) cc nc
          (searchDates date_from date_to)).1,
        (searchLoop env (strLower pl) bucket (tileid1 (stripT tile))
          (tileid2 (stripT tile)) (tileid3 (stripT tile)) cc nc
          (searchDates date_from date_to)).2,
        { s with processing_level := some (strLower pl) }⟩ := by
  rcases hsl : searchLoop env (strLower pl) bucket (tileid1 (stripT tile))
      (tileid2 (stripT tile)) (tileid3 (stripT tile)) cc nc
      (searchDates date_from date_to) with ⟨r, reqs⟩
  simp [search_s2l2a, hb, hsl]

theorem lookupStr_S3_BUCKETS_none (x : String)
    (h1 : x ≠ "l1c") (h2 : x ≠ "l2a") : lookupStr S3_BUCKETS x = none := by
  have e1 : ("l1c" == x) = false := beq_eq_false_iff_ne.mpr (Ne.symm h1)
  have e2 : ("l2a" == x) = false := beq_eq_false_iff_ne.mpr (Ne.symm h2)
  simp [lookupStr, S3_BUCKETS, List.find?, e1, e2]

theorem search_s2l2a_invalid_eq (env : S3Env) (s : DLState) (tile : String)
    (date_from date_to : Int) (cc nc : Rat) (pl : String)
    (h1 : (strLower pl) ≠ "l1c") (h2 : (strLower pl) ≠ "l2a") :
    search_s2l2a env s tile date_from date_to cc nc pl =
      ⟨Except.error wrongLevelMsg, [],
        { s with processing_level := some (strLower pl) }⟩ := by
  simp [search_s2l2a, lookupStr_S3_BUCKETS_none (strLower pl) h1 h2]

/-! ## C3: acceptance test -/

/-- C3: for every date of the searched range whose metadata document is
retrievable (and when the search as a whole returns normally), `search_s2l2a`
accepts the date if and only if `cloudy ≤ cloud_cov` and
`nodata ≤ nodata_cov`, where `cloudy` is the parsed
`CLOUDY_PIXEL_PERCENTAGE` and `nodata` is the parsed
`NODATA_PIXEL_PERCENTAGE` for L2A and `0` for L1C (`nodataOf`). -/
theorem search_accepts_iff_thresholds (env : S3Env) (s : DLState)
    (tile : String) (date_from date_to : Int) (cc nc : Rat) (pl bucket : String)
    (hb : lookupStr S3_BUCKETS (strLower pl) = some bucket)
    (out : List Int)
    (hok : (search_s2l2a env s tile date_from date_to cc nc pl).result =
      Except.ok out)
    (d : Int) (hd : d ∈ searchDates date_from date_to) (body : String)
    (hfetch : env.getObject bucket
      (mkMetaKey (tileid1 (stripT tile)) (tileid2 (stripT tile))
        (tileid3 (stripT tile)) d) = some body)
    (cloudy nodata : Rat)
    (hc : readCloudy env (strLower pl) body = some cloudy)
    (hn : nodataOf env (strLower pl) body = some nodata) :
    d ∈ out ↔ (cloudy ≤ cc ∧ nodata ≤ nc) := by
  rw [search_s2l2a_valid_eq env s tile date_from date_to cc nc pl bucket hb] at hok
  rcases hsl : searchLoop env (strLower pl) bucket (tileid1 (stripT tile))
      (tileid2 (stripT tile)) (tileid3 (stripT tile)) cc nc
      (searchDates date_from date_to) with ⟨r, reqs⟩
  rw [hsl] at hok
  simp only at hok
  exact searchLoop_mem_iff env (strLower pl) bucket (tileid1 (stripT tile))
    (tileid2 (stripT tile)) (tileid3 (stripT tile)) cc nc
    (searchDates date_from date_to) out reqs d body cloudy nodata
    (searchDates_nodup date_from date_to) hd (by rw [hsl, hok]) hfetch hc hn

/-! ## Concrete fixtures for witnesses and counterexamples -/

/-- A fresh downloader instance. -/
def s0 : DLState := mkDownloader "ak" "sk" true

/-- A world in which every metadata fetch succeeds and both quality fields
parse as `10`. -/
def envAllTen : S3Env :=
  { getObject := fun _ _ => some "doc",
    xmlLookup := fun _ _ => some "10",
    parseFloat := fun t => if t = "10" then some 10 else none }

/-- A world in which every metadata fetch raises. -/
def envAllFail : S3Env :=
  { getObject := fun _ _ => none,
    xmlLookup := fun _ _ => none,
    parseFloat := fun _ => none }

/-- A world in which every fetch succeeds but the document never parses. -/
def envParseFail : S3Env :=
  { getObject := fun _ _ => some "junk",
    xmlLookup := fun _ _ => none,
    parseFloat := fun _ => none }

/-- Witness for C3 at a concrete input: one-day range, metadata retrievable,
`cloudy = nodata = 10`, thresholds `100`/`100`, date accepted. -/
theorem search_accepts_iff_thresholds_witness :
    (search_s2l2a envAllTen s0 "T35VNH" 0 0 100 100 "l2a").result =
      Except.ok [0] ∧
    ((0 : Int) ∈ [(0 : Int)] ↔ ((10 : Rat) ≤ 100 ∧ (10 : Rat) ≤ 100)) :=
  ⟨by rfl,
   search_accepts_iff_thresholds envAllTen s0 "T35VNH" 0 0 100 100 "l2a"
     "sentinel-s2-l2a" (by rfl) [0] (by rfl) 0 (by decide) "doc" (by rfl)
     10 10 (by rfl) (by rfl)⟩

/-! ## C4: metadata failures -/

/-- C4 counterexample: the claim says any failure to obtain **or parse** a
date's metadata is non-fatal and no error reaches the caller.  In the code
only the `get_object` call sits inside the `try`; with a world in which the
fetch succeeds but the document does not parse (`envParseFail`), the parse
exception escapes `search_s2l2a` and the caller receives an error instead of
a date list. -/
theorem search_parse_failure_surfaces_error :
    (search_s2l2a envParseFail s0 "T35VNH" 0 1 100 100 "l2a").result =
      Except.error parseErrMsg := by rfl

/-- C4 amended: a failure of the metadata **fetch** (`get_object`) is
non-fatal — the date is skipped and, when the search returns normally, such a
date is never in the result; a range in which no date's metadata is
retrievable yields `Except.ok []`, not an error.  (A failure to *parse* a
successfully retrieved document, by contrast, escapes to the caller, as the
counterexample shows.) -/
theorem search_fetch_failure_nonfatal (env : S3Env) (s : DLState)
    (tile : String) (date_from date_to : Int) (cc nc : Rat)
    (pl bucket : String)
    (hb : lookupStr S3_BUCKETS (strLower pl) = some bucket) :
    ((∀ d ∈ searchDates date_from date_to,
        env.getObject bucket
          (mkMetaKey (tileid1 (stripT tile)) (tileid2 (stripT tile))
            (tileid3 (stripT tile)) d) = none) →
      (search_s2l2a env s tile date_from date_to cc nc pl).result =
        Except.ok []) ∧
    (∀ (out : List Int) (d : Int),
      (search_s2l2a env s tile date_from date_to cc nc pl).result =
        Except.ok out →
      env.getObject bucket
        (mkMetaKey (tileid1 (stripT tile)) (tileid2 (stripT tile))
          (tileid3 (stripT tile)) d) = none →
      d ∉ out) := by
  rw [search_s2l2a_valid_eq env s tile date_from date_to cc nc pl bucket hb]
  constructor
  · intro hall
    rw [searchLoop_all_fail env (strLower pl) bucket (tileid1 (stripT tile))
      (tileid2 (stripT tile)) (tileid3 (stripT tile)) cc nc
      (searchDates date_from date_to) hall]
  · intro out d hok hdnone
    rcases hsl : searchLoop env (strLower pl) bucket (tileid1 (stripT tile))
        (tileid2 (stripT tile)) (tileid3 (stripT tile)) cc nc
        (searchDates date_from date_to) with ⟨r, reqs⟩
    rw [hsl] at hok
    simp only at hok
    exact searchLoop_fetch_none_excluded env (strLower pl) bucket
      (tileid1 (stripT tile)) (tileid2 (stripT tile)) (tileid3 (stripT tile))
      cc nc (searchDates date_from date_to) out reqs d
      (by rw [hsl, hok]) hdnone

/-- Witness for C4 (amended) at a concrete input: a three-day range in which
every fetch raises returns the empty list, not an error. -/
theorem search_fetch_failure_nonfatal_witness :
    (search_s2l2a envAllFail s0 "T35VNH" 0 2 100 100 "l2a").result =
      Except.ok [] :=
  (search_fetch_failure_nonfatal envAllFail s0 "T35VNH" 0 2 100 100 "l2a"
    "sentinel-s2-l2a" (by rfl)).1 (fun d _ => rfl)

/-! ## C5: range enumeration and ordering -/

/-- C5: for a valid range, the enumerated days are exactly the calendar days
of `[date_from, date_to]` inclusive, in strictly ascending order; when the
search returns normally it has issued one metadata request per enumerated
day, in that order, and the accepted dates are strictly ascending and a
subset of the inclusive range. -/
theorem search_enumeration_sorted_subset (env : S3Env) (s : DLState)
    (tile : String) (date_from date_to : Int) (cc nc : Rat)
    (pl bucket : String)
    (hb : lookupStr S3_BUCKETS (strLower pl) = some bucket)
    (hle : date_from ≤ date_to) :
    (∀ d : Int, d ∈ searchDates date_from date_to ↔
      date_from ≤ d ∧ d ≤ date_to) ∧
    (searchDates date_from date_to).Pairwise (· < ·) ∧
    (∀ out : List Int,
      (search_s2l2a env s tile date_from date_to cc nc pl).result =
        Except.ok out →
      (search_s2l2a env s tile date_from date_to cc nc pl).requests =
        (searchDates date_from date_to).map
          (fun d => (bucket, mkMetaKey (tileid1 (stripT tile))
            (tileid2 (stripT tile)) (tileid3 (stripT tile)) d)) ∧
      out.Pairwise (· < ·) ∧
      (∀ d ∈ out, date_from ≤ d ∧ d ≤ date_to)) := by
  refine ⟨fun d => searchDates_mem date_from date_to d,
    searchDates_pairwise date_from date_to, fun out hok => ?_⟩
  rw [search_s2l2a_valid_eq env s tile date_from date_to cc nc pl bucket hb] at hok ⊢
  rcases hsl : searchLoop env (strLower pl) bucket (tileid1 (stripT tile))
      (tileid2 (stripT tile)) (tileid3 (stripT tile)) cc nc
      (searchDates date_from date_to) with ⟨r, reqs⟩
  rw [hsl] at hok
  simp only at hok ⊢
  have hloop : searchLoop env (strLower pl) bucket (tileid1 (stripT tile))
      (tileid2 (stripT tile)) (tileid3 (stripT tile)) cc nc
      (searchDates date_from date_to) = (Except.ok out, reqs) := by
    rw [hsl, hok]
  have hsub := searchLoop_ok_sublist env (strLower pl) bucket
    (tileid1 (stripT tile)) (tileid2 (stripT tile)) (tileid3 (stripT tile))
    cc nc (searchDates date_from date_to) out reqs hloop
  refine ⟨searchLoop_ok_requests env (strLower pl) bucket
    (tileid1 (stripT tile)) (tileid2 (stripT tile)) (tileid3 (stripT tile))
    cc nc (searchDates date_from date_to) out reqs hloop,
    (searchDates_pairwise date_from date_to).sublist hsub,
    fun d hd => (searchDates_mem date_from date_to d).mp (hsub.mem hd)⟩

/-- Witness for C5 at a concrete input (range `[0, 2]`, every fetch
failing). -/
theorem search_enumeration_sorted_subset_witness :
    ((0 : Int) ≤ 2) ∧
    ((1 : Int) ∈ searchDates 0 2 ↔ (0 : Int) ≤ 1 ∧ (1 : Int) ≤ 2) :=
  ⟨by decide,
   (search_enumeration_sorted_subset envAllFail s0 "T35VNH" 0 2 100 100 "l2a"
     "sentinel-s2-l2a" (by rfl) (by decide)).1 1⟩

/-! ## C8: instance thresholds are dead for the search -/

/-- C8: the instance fields `cloud_cov`/`nodata_cov` set in the constructor
are never consulted by `search_s2l2a`: two instances that differ only in
those fields produce the same result and issue the same requests for every
search call (the method uses only its own `cloud_cov`/`nodata_cov`
parameters). -/
theorem search_ignores_instance_thresholds (env : S3Env) (s1 s2 : DLState)
    (hak : s1.access_keyid = s2.access_keyid)
    (hsk : s1.secret_access_keyid = s2.secret_access_keyid)
    (hv : s1.verbose = s2.verbose)
    (hpl : s1.processing_level = s2.processing_level)
    (tile : String) (date_from date_to : Int) (cc nc : Rat) (pl : String) :
    (search_s2l2a env s1 tile date_from date_to cc nc pl).result =
      (search_s2l2a env s2 tile date_from date_to cc nc pl).result ∧
    (search_s2l2a env s1 tile date_from date_to cc nc pl).requests =
      (search_s2l2a env s2 tile date_from date_to cc nc pl).requests := by
  rcases h : lookupStr S3_BUCKETS (strLower pl) with _ | bucket
  · simp [search_s2l2a, h]
  · rcases hsl : searchLoop env (strLower pl) bucket (tileid1 (stripT tile))
        (tileid2 (stripT tile)) (tileid3 (stripT tile)) cc nc
        (searchDates date_from date_to) with ⟨r, reqs⟩
    simp [search_s2l2a, h, hsl]

/-- Witness for C8: the constructor instance (70/10) and a copy with
permissive instance thresholds (100/100) return the same result. -/
theorem search_ignores_instance_thresholds_witness :
    (search_s2l2a envAllTen s0 "T35VNH" 0 0 100 100 "l2a").result =
      (search_s2l2a envAllTen
        { s0 with cloud_cov := 100, nodata_cov := 100 }
        "T35VNH" 0 0 100 100 "l2a").result :=
  (search_ignores_instance_thresholds envAllTen s0
    { s0 with cloud_cov := 100, nodata_cov := 100 } rfl rfl rfl rfl
    "T35VNH" 0 0 100 100 "l2a").1

/-! ## C9: invalid processing level -/

/-- C9: a processing level whose lowercasing is neither `"l1c"` nor `"l2a"`
makes `search_s2l2a` fail with the descriptive `ValueError` of line 141, and
no `get_object` request is ever issued. -/
theorem search_invalid_level_rejected_before_network (env : S3Env)
    (s : DLState) (tile : String) (date_from date_to : Int) (cc nc : Rat)
    (pl : String) (h1 : strLower pl ≠ "l1c") (h2 : strLower pl ≠ "l2a") :
    (search_s2l2a env s tile date_from date_to cc nc pl).result =
      Except.error wrongLevelMsg ∧
    (search_s2l2a env s tile date_from date_to cc nc pl).requests = [] := by
  rw [search_s2l2a_invalid_eq env s tile date_from date_to cc nc pl h1 h2]
  exact ⟨rfl, rfl⟩

/-- Witness for C9 at the concrete invalid level `"L3A"`. -/
theorem search_invalid_level_rejected_before_network_witness :
    (search_s2l2a envAllTen s0 "T35VNH" 0 2 100 100 "L3A").result =
      Except.error wrongLevelMsg ∧
    (search_s2l2a envAllTen s0 "T35VNH" 0 2 100 100 "L3A").requests = [] :=
  search_invalid_level_rejected_before_network envAllTen s0 "T35VNH" 0 2
    100 100 "L3A" (by decide) (by decide)

/-! ## C10: the failed search call still mutates the instance -/

theorem bandStep_prefix_error (cx : FetchCtx) (ow : Bool) (fs : List String)
    (band : String) (hres : (effRes band cx.resolution).isSome = true)
    (hpre : cx.lvl.bind (lookupStr S3_PREFIXES) = none) :
    bandStep cx ow fs band = Except.error "KeyError: invalid processing level" := by
  rcases heff : effRes band cx.resolution with _ | r
  · rw [heff] at hres; cases hres
  · simp only [bandStep, heff, hpre]

theorem bandLoop_head_error (cx : FetchCtx) (ow : Bool) (b : String)
    (rest fs : List String) (dict acts : List (String × String)) (e : String)
    (hstep : bandStep cx ow fs b = Except.error e) :
    bandLoop cx ow (b :: rest) fs dict acts = Except.error e := by
  simp only [bandLoop, hstep]

/-- For a downloader whose `processing_level` is set but invalid, a
single-date `download_images` call with the default band list fails with the
`KeyError` of the `S3_PREFIX` dict access. -/
theorem download_single_invalid_level (s : DLState) (x : String)
    (hx : s.processing_level = some x)
    (h1 : x ≠ "l1c") (h2 : x ≠ "l2a")
    (fs : List String) (tile : String) (date : Int) (output_dir : String) :
    download_images_single s fs tile date output_dir S2_BANDS none true false =
      Except.error "KeyError: invalid processing level" := by
  have hne : (s.processing_level == some "l2a") = false := by
    rw [hx]
    simp only [beq_eq_false_iff_ne, ne_eq, Option.some.injEq]
    exact h2
  have hcx_lvl : (mkFetchCtx s tile date output_dir none).lvl =
      s.processing_level := rfl
  have hpre : (mkFetchCtx s tile date output_dir none).lvl.bind
      (lookupStr S3_PREFIXES) = none := by
    rw [hcx_lvl, hx]
    have e1 : ("l1c" == x) = false := beq_eq_false_iff_ne.mpr (Ne.symm h1)
    have e2 : ("l2a" == x) = false := beq_eq_false_iff_ne.mpr (Ne.symm h2)
    simp [lookupStr, S3_PREFIXES, List.find?, e1, e2]
  have hres : (effRes "B01" (mkFetchCtx s tile date output_dir none).resolution).isSome
      = true := rfl
  have hstep := bandStep_prefix_error (mkFetchCtx s tile date output_dir none)
    false fs "B01" hres hpre
  simp only [download_images_single, hne, Bool.and_false, Bool.false_eq_true,
    if_false, S2_BANDS]
  exact bandLoop_head_error _ _ _ _ _ _ _ _ hstep

/-- C10: when `search_s2l2a` is called with an invalid processing level, the
instance field `processing_level` has already been assigned the lowercased
invalid value when the `ValueError` is raised, so the failed call mutates the
instance; a subsequent single-date `download_images` call on that instance
(with the default bands) observes the invalid level and fails with the
`KeyError` from the `S3_PREFIX` lookup. -/
theorem search_invalid_level_mutates_state (env : S3Env) (s : DLState)
    (tile : String) (date_from date_to : Int) (cc nc : Rat) (pl : String)
    (h1 : strLower pl ≠ "l1c") (h2 : strLower pl ≠ "l2a") :
    (search_s2l2a env s tile date_from date_to cc nc pl).finalState.processing_level =
      some (strLower pl) ∧
    (search_s2l2a env s tile date_from date_to cc nc pl).result =
      Except.error wrongLevelMsg ∧
    (∀ (fs : List String) (tile2 : String) (date : Int) (output_dir : String),
      download_images_single
        (search_s2l2a env s tile date_from date_to cc nc pl).finalState
        fs tile2 date output_dir S2_BANDS none true false =
      Except.error "KeyError: invalid processing level") := by
  rw [search_s2l2a_invalid_eq env s tile date_from date_to cc nc pl h1 h2]
  exact ⟨rfl, rfl, fun fs tile2 date output_dir =>
    download_single_invalid_level _ (strLower pl) rfl h1 h2 fs tile2 date output_dir⟩

/-- Witness for C10 at the concrete invalid level `"L3A"`. -/
theorem search_invalid_level_mutates_state_witness :
    (search_s2l2a envAllTen s0 "T35VNH" 0 2 100 100 "L3A").finalState.processing_level =
      some "l3a" ∧
    download_images_single
      (search_s2l2a envAllTen s0 "T35VNH" 0 2 100 100 "L3A").finalState
      [] "T35VNH" 0 "out" S2_BANDS none true false =
      Except.error "KeyError: invalid processing level" := by
  have h := search_invalid_level_mutates_state envAllTen s0 "T35VNH" 0 2
    100 100 "L3A" (by decide) (by decide)
  exact ⟨by rw [h.1]; rfl, h.2.2 [] "T35VNH" 0 "out"⟩

/-! ## C6: end-to-end key and path resolution -/

/-- An instance on which an L2A search has completed. -/
def sL2A : DLState := { s0 with processing_level := some "l2a" }

/-- An instance on which an L1C search has completed. -/
def sL1C : DLState := { s0 with processing_level := some "l1c" }

/-- C6: tile `"T35VNH"`, level L2A, date 2021-06-15, bands `["B8A","B12"]`,
resolution override 60: the fetched keys are
`tiles/35/V/NH/2021/6/15/0/R60m/{B8A,B12}.jp2` (month and day unpadded)
under the `sentinel-s2-l2a` bucket, and the outputs are
`T35VNH_20210615_L2A_{B8A,B12}.tif` under `out/20210615/`. -/
theorem end_to_end_t35vnh_l2a :
    download_images sL2A [] "T35VNH"
      (DatesArg.single (daysFromCivil 2021 6 15)) "out" ["B8A", "B12"]
      (some 60) false false =
    Except.ok (PathDict.flat
      [("B8A", "out/20210615/T35VNH_20210615_L2A_B8A.tif"),
       ("B12", "out/20210615/T35VNH_20210615_L2A_B12.tif")],
      ["out/20210615/T35VNH_20210615_L2A_B8A.tif",
       "out/20210615/T35VNH_20210615_L2A_B12.tif"],
      [("/vsis3/sentinel-s2-l2a/" ++ "tiles/35/V/NH/2021/6/15/0/R60m/B8A.jp2",
        "out/20210615/T35VNH_20210615_L2A_B8A.tif"),
       ("/vsis3/sentinel-s2-l2a/" ++ "tiles/35/V/NH/2021/6/15/0/R60m/B12.jp2",
        "out/20210615/T35VNH_20210615_L2A_B12.tif")]) := by rfl

/-! ## C2: the per-date recursion drops the caller's flags -/

/-- C2: when `dates` is a list, `download_images` forwards only
`(tile, date, output_dir, bands, resolution)` to each per-date call, so the
result is independent of the caller's `download_cloud` and `overwrite`
arguments, and each per-date download is the single-date call with
`download_cloud = true` and `overwrite = false`. -/
theorem download_many_ignores_flags (s : DLState) (fs : List String)
    (tile : String) (ds : List Int) (output_dir : String)
    (bands : List String) (resolution : Option Nat) (dc ow : Bool) :
    download_images s fs tile (DatesArg.many ds) output_dir bands resolution
        dc ow =
      download_images s fs tile (DatesArg.many ds) output_dir bands resolution
        true false ∧
    ∀ d : Int,
      download_images s fs tile (DatesArg.many [d]) output_dir bands
          resolution dc ow =
        (match download_images_single s fs tile d output_dir bands resolution
            true false with
         | Except.error e => Except.error e
         | Except.ok (ret, fs2, acts2) =>
           Except.ok (PathDict.byDate [(fmtYmd d, ret)], fs2, acts2)) := by
  refine ⟨rfl, fun d => ?_⟩
  rcases h : download_images_single s fs tile d output_dir bands resolution
      true false with e | ⟨ret, fs2, acts2⟩
  · simp [download_images, manyLoop, h]
  · simp [download_images, manyLoop, h, dictInsert]

/-! ## C7: effective resolution -/

/-- C7: every band of `S2_BANDS` belongs to exactly one resolution group;
with no override the effective resolution is the native one, and with any
override `r` it is `max r native` (so never finer than native — in
particular `r = 0`, which Python treats as falsy, also yields the native
resolution). -/
theorem effective_resolution_max_native (band : String)
    (hb : band ∈ S2_BANDS) :
    ∃ native, bandResList band = [native] ∧
      effRes band none = some native ∧
      ∀ r : Nat, effRes band (some r) = some (max r native) := by
  have hlen : (bandResList band).length = 1 := by fin_cases hb <;> rfl
  obtain ⟨native, hnat⟩ := List.length_eq_one.mp hlen
  have hhead : nativeRes band = some native := by
    rw [show nativeRes band = (bandResList band).head? from rfl, hnat]
    rfl
  refine ⟨native, hnat, by simp [effRes, hhead], fun r => ?_⟩
  by_cases hr : r = 0
  · subst hr
    simp [effRes, hhead, Nat.zero_max]
  · simp [effRes, hhead, hr]

/-- Witness for C7 at the 10m-group band `"B02"`: no override gives 10,
override 20 gives 20, override 5 gives 10. -/
theorem effective_resolution_max_native_witness :
    ("B02" ∈ S2_BANDS ∧
      ∃ native, bandResList "B02" = [native] ∧
        effRes "B02" none = some native ∧
        ∀ r : Nat, effRes "B02" (some r) = some (max r native)) ∧
    effRes "B02" none = some 10 ∧
    effRes "B02" (some 20) = some 20 ∧
    effRes "B02" (some 5) = some 10 :=
  ⟨⟨by decide, effective_resolution_max_native "B02" (by decide)⟩,
   by decide, by decide, by decide⟩

/-! ## C1: the write guard and idempotence -/

theorem shouldWrite_iff (fs : List String) (p : String) (ow : Bool) :
    shouldWrite fs p ow = true ↔ (ow = true ∨ p ∉ fs) := by
  by_cases hm : p ∈ fs <;> cases ow <;> simp [shouldWrite, hm]

theorem shouldWrite_false_mem (fs : List String) (p : String) (ow : Bool)
    (h : shouldWrite fs p ow = false) : p ∈ fs := by
  by_cases hm : p ∈ fs
  · exact hm
  · simp [shouldWrite, hm] at h

theorem shouldWrite_mem_false (fs : List String) (p : String)
    (h : p ∈ fs) : shouldWrite fs p false = false := by
  simp [shouldWrite, h]

theorem shouldWrite_true_overwrite (fs : List String) (p : String) :
    shouldWrite fs p true = true := by
  by_cases hm : p ∈ fs <;> simp [shouldWrite, hm]

theorem insertFile_mem_self (p : String) (fs : List String) :
    p ∈ insertFile p fs := by
  by_cases hm : p ∈ fs <;> simp [insertFile, hm]

theorem insertFile_mono (p q : String) (fs : List String) (h : q ∈ fs) :
    q ∈ insertFile p fs := by
  by_cases hm : p ∈ fs <;> simp [insertFile, hm, h]

theorem bandStep_ok_shape (cx : FetchCtx) (ow : Bool) (fs : List String)
    (band p u : String) (w : Bool)
    (h : bandStep cx ow fs band = Except.ok (p, u, w)) :
    p = bandOutPath cx band ∧ w = shouldWrite fs p ow ∧
    (∀ (fs2 : List String) (ow2 : Bool),
      bandStep cx ow2 fs2 band = Except.ok (p, u, shouldWrite fs2 p ow2)) := by
  rcases heff : effRes band cx.resolution with _ | r
  · rw [bandStep, heff] at h; cases h
  · rcases hpre : cx.lvl.bind (lookupStr S3_PREFIXES) with _ | pre
    · rw [bandStep, heff] at h
      simp only [hpre] at h
      cases h
    · rw [bandStep, heff] at h
      simp only [hpre, Except.ok.injEq, Prod.mk.injEq] at h
      obtain ⟨hp, hu, hw⟩ := h
      refine ⟨hp.symm, by rw [← hw, hp], fun fs2 ow2 => ?_⟩
      rw [bandStep, heff]
      simp only [hpre, Except.ok.injEq, Prod.mk.injEq]
      exact ⟨hp, hu, by rw [hp]⟩

theorem bandLoop_ok_paths (cx : FetchCtx) (ow : Bool) :
    ∀ (bands fs : List String) (dict acts : List (String × String))
      (d1 : List (String × String)) (f1 : List String)
      (a1 : List (String × String)),
      bandLoop cx ow bands fs dict acts = Except.ok (d1, f1, a1) →
      (∀ p ∈ fs, p ∈ f1) ∧ (∀ b ∈ bands, bandOutPath cx b ∈ f1) := by
  intro bands
  induction bands with
  | nil =>
    intro fs dict acts d1 f1 a1 h
    simp only [bandLoop, Except.ok.injEq, Prod.mk.injEq] at h
    exact ⟨fun p hp => h.2.1 ▸ hp, by simp⟩
  | cons b rest ih =>
    intro fs dict acts d1 f1 a1 h
    rcases hstep : bandStep cx ow fs b with e | ⟨p, u, w⟩
    · rw [bandLoop, hstep] at h; cases h
    · rw [bandLoop, hstep] at h
      simp only at h
      obtain ⟨hp, _, _⟩ := bandStep_ok_shape cx ow fs b p u w hstep
      have hmem : p ∈ (if w then insertFile p fs else fs) := by
        cases hw : w
        · simpa using shouldWrite_false_mem fs p ow
            (by rw [← (bandStep_ok_shape cx ow fs b p u w hstep).2.1, hw])
        · simpa using insertFile_mem_self p fs
      obtain ⟨hmono, hrest⟩ := ih _ _ _ _ _ _ h
      refine ⟨fun q hq => hmono q ?_, fun b2 hb2 => ?_⟩
      · cases hw : w
        · simpa [hw] using hq
        · simp only [hw, if_true]
          exact insertFile_mono p q fs hq
      · rcases List.mem_cons.mp hb2 with rfl | hb2
        · exact hp ▸ hmono p hmem
        · exact hrest b2 hb2

theorem bandLoop_skip (cx : FetchCtx) :
    ∀ (bands fs : List String) (dict acts : List (String × String))
      (d1 : List (String × String)) (f1 : List String)
      (a1 : List (String × String)),
      bandLoop cx false bands fs dict acts = Except.ok (d1, f1, a1) →
      ∀ (fs2 : List String) (acts2 : List (String × String)),
        (∀ b ∈ bands, bandOutPath cx b ∈ fs2) →
        bandLoop cx false bands fs2 dict acts2 = Except.ok (d1, fs2, acts2) := by
  intro bands
  induction bands with
  | nil =>
    intro fs dict acts d1 f1 a1 h fs2 acts2 _
    simp only [bandLoop, Except.ok.injEq, Prod.mk.injEq] at h
    simp only [bandLoop]
    rw [h.1]
  | cons b rest ih =>
    intro fs dict acts d1 f1 a1 h fs2 acts2 hpaths
    rcases hstep : bandStep cx false fs b with e | ⟨p, u, w⟩
    · rw [bandLoop, hstep] at h; cases h
    · rw [bandLoop, hstep] at h
      simp only at h
      obtain ⟨hp, _, hgen⟩ := bandStep_ok_shape cx false fs b p u w hstep
      have hmem2 : p ∈ fs2 := hp ▸ hpaths b (by simp)
      have hstep2 : bandStep cx false fs2 b = Except.ok (p, u, false) := by
        rw [hgen fs2 false, shouldWrite_mem_false fs2 p hmem2]
      rw [bandLoop, hstep2]
      simp only [if_neg (by simp : ¬False), Bool.false_eq_true, if_false]
      exact ih _ _ _ _ _ _ h fs2 acts2 (fun b2 hb2 => hpaths b2 (by simp [hb2]))

theorem bandLoop_true_writes (cx : FetchCtx) :
    ∀ (bands fs : List String) (dict acts : List (String × String))
      (d1 : List (String × String)) (f1 : List String)
      (a1 : List (String × String)),
      bandLoop cx true bands fs dict acts = Except.ok (d1, f1, a1) →
      (∀ x ∈ acts, x ∈ a1) ∧
      (∀ b ∈ bands, ∃ uri, (uri, bandOutPath cx b) ∈ a1) := by
  intro bands
  induction bands with
  | nil =>
    intro fs dict acts d1 f1 a1 h
    simp only [bandLoop, Except.ok.injEq, Prod.mk.injEq] at h
    exact ⟨fun x hx => h.2.2 ▸ hx, by simp⟩
  | cons b rest ih =>
    intro fs dict acts d1 f1 a1 h
    rcases hstep : bandStep cx true fs b with e | ⟨p, u, w⟩
    · rw [bandLoop, hstep] at h; cases h
    · rw [bandLoop, hstep] at h
      simp only at h
      obtain ⟨hp, hw, _⟩ := bandStep_ok_shape cx true fs b p u w hstep
      have hwt : w = true := by rw [hw, shouldWrite_true_overwrite]
      rw [hwt] at h
      simp only [if_true] at h
      obtain ⟨hmono, hrest⟩ := ih _ _ _ _ _ _ h
      refine ⟨fun x hx => hmono x (by simp [hx]), fun b2 hb2 => ?_⟩
      rcases List.mem_cons.mp hb2 with rfl | hb2
      · exact ⟨u, hp ▸ hmono (u, p) (by simp)⟩
      · exact hrest b2 hb2

theorem download_single_second_call (s : DLState) (fs : List String)
    (tile : String) (date : Int) (output_dir : String) (bands : List String)
    (res : Option Nat) (dc : Bool) (dict : List (String × String))
    (fs1 : List String) (acts : List (String × String))
    (h : download_images_single s fs tile date output_dir bands res dc false =
      Except.ok (dict, fs1, acts)) :
    download_images_single s fs1 tile date output_dir bands res dc false =
      Except.ok (dict, fs1, []) := by
  simp only [download_images_single] at h ⊢
  by_cases hc : (dc && (s.processing_level == some "l2a")) = true
  · rw [if_pos hc] at h ⊢
    rcases hw1 : shouldWrite fs (cloudPath s (mkFetchCtx s tile date output_dir res)) false
      with _ | _
    all_goals rw [hw1] at h
    · -- the cloud mask already existed: it was not written on the first call
      simp only [Bool.false_eq_true, if_false] at h
      have hcp : cloudPath s (mkFetchCtx s tile date output_dir res) ∈ fs :=
        shouldWrite_false_mem _ _ _ hw1
      obtain ⟨hmono, hpaths⟩ := bandLoop_ok_paths _ _ _ _ _ _ _ _ _ h
      have hcp1 : cloudPath s (mkFetchCtx s tile date output_dir res) ∈ fs1 :=
        hmono _ hcp
      rw [shouldWrite_mem_false fs1 _ hcp1]
      simp only [Bool.false_eq_true, if_false]
      exact bandLoop_skip _ _ _ _ _ _ _ _ h fs1 [] hpaths
    · -- the cloud mask was written on the first call
      simp only [if_true] at h
      have hcp : cloudPath s (mkFetchCtx s tile date output_dir res) ∈
          insertFile (cloudPath s (mkFetchCtx s tile date output_dir res)) fs :=
        insertFile_mem_self _ _
      obtain ⟨hmono, hpaths⟩ := bandLoop_ok_paths _ _ _ _ _ _ _ _ _ h
      have hcp1 : cloudPath s (mkFetchCtx s tile date output_dir res) ∈ fs1 :=
        hmono _ hcp
      rw [shouldWrite_mem_false fs1 _ hcp1]
      simp only [Bool.false_eq_true, if_false]
      exact bandLoop_skip _ _ _ _ _ _ _ _ h fs1 [] hpaths
  · rw [if_neg hc] at h ⊢
    obtain ⟨hmono, hpaths⟩ := bandLoop_ok_paths _ _ _ _ _ _ _ _ _ h
    exact bandLoop_skip _ _ _ _ _ _ _ _ h fs1 [] hpaths

theorem download_single_true_writes (s : DLState) (fs : List String)
    (tile : String) (date : Int) (output_dir : String) (bands : List String)
    (res : Option Nat) (dc : Bool) (dict : List (String × String))
    (fs1 : List String) (acts : List (String × String))
    (h : download_images_single s fs tile date output_dir bands res dc true =
      Except.ok (dict, fs1, acts)) :
    ∀ b ∈ bands, ∃ uri,
      (uri, bandOutPath (mkFetchCtx s tile date output_dir res) b) ∈ acts := by
  simp only [download_images_single] at h
  by_cases hc : (dc && (s.processing_level == some "l2a")) = true
  · rw [if_pos hc] at h
    exact fun b hb => (bandLoop_true_writes _ _ _ _ _ _ _ _ h).2 b hb
  · rw [if_neg hc] at h
    exact fun b hb => (bandLoop_true_writes _ _ _ _ _ _ _ _ h).2 b hb

/-- C1 (amended): for **single-date** calls the retrieve/write step for a
target is performed exactly when `overwrite` is true or the target does not
yet exist: the guard of lines 225/245 is equivalent to
`overwrite ∨ ¬ exists`; a repeated single-date call with `overwrite = false`
performs no retrieve/write and returns the same `path_dict`; and a
single-date call with `overwrite = true` retrieves and writes every
requested band.  (For list-dates calls `overwrite` is not forwarded — see
the counterexample and C2.) -/
theorem download_single_write_guard :
    (∀ (fs : List String) (p : String) (ow : Bool),
      shouldWrite fs p ow = true ↔ (ow = true ∨ p ∉ fs)) ∧
    (∀ (s : DLState) (fs : List String) (tile : String) (date : Int)
      (output_dir : String) (bands : List String) (res : Option Nat)
      (dc : Bool) (dict : List (String × String)) (fs1 : List String)
      (acts : List (String × String)),
      download_images s fs tile (DatesArg.single date) output_dir bands res
          dc false = Except.ok (PathDict.flat dict, fs1, acts) →
      download_images s fs1 tile (DatesArg.single date) output_dir bands res
          dc false = Except.ok (PathDict.flat dict, fs1, [])) ∧
    (∀ (s : DLState) (fs : List String) (tile : String) (date : Int)
      (output_dir : String) (bands : List String) (res : Option Nat)
      (dc : Bool) (dict : List (String × String)) (fs1 : List String)
      (acts : List (String × String)),
      download_images s fs tile (DatesArg.single date) output_dir bands res
          dc true = Except.ok (PathDict.flat dict, fs1, acts) →
      ∀ b ∈ bands, ∃ uri,
        (uri, bandOutPath (mkFetchCtx s tile date output_dir res) b) ∈ acts) := by
  refine ⟨shouldWrite_iff, ?_, ?_⟩
  · intro s fs tile date output_dir bands res dc dict fs1 acts h
    rcases h1 : download_images_single s fs tile date output_dir bands res
        dc false with e | ⟨d0, f0, a0⟩
    · rw [download_images, h1] at h; cases h
    · rw [download_images, h1] at h
      simp only [Except.ok.injEq, Prod.mk.injEq, PathDict.flat.injEq] at h
      obtain ⟨hd, hf, ha⟩ := h
      have h2 := download_single_second_call s fs tile date output_dir bands
        res dc d0 f0 a0 h1
      rw [← hf, ← hd, download_images, h2]
  · intro s fs tile date output_dir bands res dc dict fs1 acts h
    rcases h1 : download_images_single s fs tile date output_dir bands res
        dc true with e | ⟨d0, f0, a0⟩
    · rw [download_images, h1] at h; cases h
    · rw [download_images, h1] at h
      simp only [Except.ok.injEq, Prod.mk.injEq, PathDict.flat.injEq] at h
      obtain ⟨hd, hf, ha⟩ := h
      rw [← ha]
      exact download_single_true_writes s fs tile date output_dir bands res
        dc d0 f0 a0 h1

/-- Witness for C1 (amended) at a concrete input: the first single-date call
writes band B02, the repeated call observes the file and performs no
retrieve/write. -/
theorem download_single_write_guard_witness :
    download_images sL2A [] "T35VNH"
      (DatesArg.single (daysFromCivil 2021 6 15)) "out" ["B02"] none
      false false =
      Except.ok (PathDict.flat
        [("B02", "out/20210615/T35VNH_20210615_L2A_B02.tif")],
        ["out/20210615/T35VNH_20210615_L2A_B02.tif"],
        [("/vsis3/sentinel-s2-l2a/tiles/35/V/NH/2021/6/15/0/R10m/B02.jp2",
          "out/20210615/T35VNH_20210615_L2A_B02.tif")]) ∧
    download_images sL2A ["out/20210615/T35VNH_20210615_L2A_B02.tif"]
      "T35VNH" (DatesArg.single (daysFromCivil 2021 6 15)) "out" ["B02"] none
      false false =
      Except.ok (PathDict.flat
        [("B02", "out/20210615/T35VNH_20210615_L2A_B02.tif")],
        ["out/20210615/T35VNH_20210615_L2A_B02.tif"], []) :=
  ⟨by rfl,
   download_single_write_guard.2.1 sL2A [] "T35VNH" (daysFromCivil 2021 6 15)
     "out" ["B02"] none false
     [("B02", "out/20210615/T35VNH_20210615_L2A_B02.tif")]
     ["out/20210615/T35VNH_20210615_L2A_B02.tif"]
     [("/vsis3/sentinel-s2-l2a/tiles/35/V/NH/2021/6/15/0/R10m/B02.jp2",
       "out/20210615/T35VNH_20210615_L2A_B02.tif")] (by rfl)⟩

/-- C1 counterexample: the claim quantifies over **every** call to
`download_images`, but when `dates` is a list the `overwrite` flag is not
forwarded to the per-date recursion (line 201).  Here the target of band B02
already exists and the caller passes `overwrite = true`, yet the call
performs no retrieve/write action at all (the returned action list is
empty), refuting "invoked with overwrite=True it always retrieves and
writes regardless of prior existence". -/
theorem download_overwrite_not_forwarded_counterexample :
    download_images sL1C ["out/20210615/T35VNH_20210615_L1C_B02.tif"]
      "T35VNH" (DatesArg.many [daysFromCivil 2021 6 15]) "out" ["B02"] none
      false true =
    Except.ok (PathDict.byDate
      [("20210615", [("B02", "out/20210615/T35VNH_20210615_L1C_B02.tif")])],
      ["out/20210615/T35VNH_20210615_L1C_B02.tif"], []) := by rfl
